import Mathlib

/-!
Shallow embedding of the payment/fulfillment core of the AVThrift backend:
the payment-intent finalization coordinator (`payments/services.py`), the
Paystack webhook processing flow (`payments/views.py`), the order state
machine and the idempotency ledger (`orders/services.py`, absent from the
source tree; modelled from the specification and pinned by the repository's
own tests), and the webhook signature validator together with a full
HMAC-SHA512 implementation.

Conventions of the embedding:
* Decimal money amounts (Django `DecimalField(max_digits=12, decimal_places=2)`)
  are represented exactly as integers counting hundredths of the major unit
  (`amountCents`), so `Decimal("50.00")` is `5000 : Int` divided by 100.
* JSON values reaching `int(...)` are represented by `Option (Option Int)`:
  `none` = key absent, `some none` = present but not parsable as an integer
  (Python `int(...)` raises), `some (some n)` = parses to `n`.
* Exceptions of fallible collaborators are `Except` values; the
  try/except blocks of the source become `match` on those values.
-/

/-- Lifecycle status of a `PaymentIntent` (`common/choices.py`,
`PaymentIntentStatus`). -/
inductive IntentStatus where
  | initialized
  | processing
  | succeeded
  | failed
  | cancelled
deriving DecidableEq, Repr

/-- Status of an `Order` (`common/choices.py`, `OrderStatus`). -/
inductive OrderStatus where
  | pending
  | paid
  | cancelled
deriving DecidableEq, Repr

/-- A Paystack webhook event body `\x7bevent, data: \x7breference, amount, ...\x7d\x7d`
as far as the finalization and webhook code reads it (`payments/views.py`,
`payments/services.py`).  `dataAmount` models `event.get("data", \x7b\x7d).get("amount")`:
`none` when the key is absent, `some none` when present but `int(...)` of it
raises, `some (some n)` when it parses as the integer `n`. -/
structure Event where
  event : String
  dataAmount : Option (Option Int)
deriving DecidableEq, Repr

/-- The fields of `PaymentIntent` (`payments/models.py`) that the webhook and
finalization code reads or writes.  `amountCents` is the decimal `amount` in
hundredths of the major unit (`none` models a Python `None` amount, guarded in
`_to_minor_units`).  `metadataLastWebhookHash` is `metadata["last_webhook_hash"]`,
the stored digest of the last processed raw webhook payload. -/
structure Intent where
  status : IntentStatus
  amountCents : Option Int
  currency : String
  metadataLastWebhookHash : Option String
  webhookEvent : Option Event
deriving DecidableEq, Repr

/-- The fields of `Order` (`orders/models.py`) the core reads or writes: its
status and the audit log of status transitions (`OrderStatusEvent` rows as
(from, to) pairs, newest first). -/
structure Order where
  status : OrderStatus
  statusEvents : List (OrderStatus × OrderStatus)
deriving DecidableEq, Repr

/-- Python `str.upper()` on ASCII strings such as currency codes, as a
character-wise map (kernel-reducible, unlike `String.toUpper`). -/
def strUpper (s : String) : String := String.mk (s.data.map Char.toUpper)

/-- The currency→minor-unit-multiplier table of `_to_minor_units`
(`payments/services.py:39`): NGN/GHS/USD map to 100, lookup default is 100. -/
def multipliers : List (String × Int) :=
  [("NGN", 100), ("GHS", 100), ("USD", 100)]

/-- `_to_minor_units(amount, currency)` (`payments/services.py:28`): `0` for a
`None` amount; otherwise uppercase the currency (falling back to `"NGN"` for a
falsy/empty one), look up the multiplier (default 100) and truncate
`amount * m` toward zero as Python `int(...)` does.  The amount is carried in
hundredths, so the source's `Decimal(amount) * Decimal(m)` is `cents * m / 100`. -/
def to_minor_units (amount : Option Int) (currency : String) : Int :=
  match amount with
  | none => 0
  | some cents =>
      let code := strUpper (if currency = "" then "NGN" else currency)
      let m := ((multipliers.lookup code).getD 100)
      Int.tdiv (cents * m) 100

/-- `int(event.get("data", \x7b\x7d).get("amount", 0))` with the enclosing
`try/except` defaulting to `0` (`payments/services.py:164`–167). -/
def eventAmountKobo (e : Event) : Int :=
  match e.dataAmount with
  | none => 0
  | some none => 0
  | some (some n) => n

/-- Modelled from the spec: `pay_order` lives in `orders/services.py`, which is
not part of the provided sources.  Spec §4.5: no-op returning the current state
if already `paid`; otherwise set `paid`, persist and append an audit event
(from = old status, to = paid).  Spec §9 records that the source's
short-circuit checks only "already paid", so a cancelled order is not guarded
here.  Best-effort side effects (email, fulfillment) are each try/caught in the
source and have no effect on the returned state, so they are omitted. -/
def pay_order (o : Order) : Order :=
  if o.status = OrderStatus.paid then o
  else { o with
          status := OrderStatus.paid,
          statusEvents := (o.status, OrderStatus.paid) :: o.statusEvents }

/-- Modelled from the spec: `cancel_order` lives in `orders/services.py`, which
is not part of the provided sources.  Spec §4.5: no-op returning the current
state if already `cancelled`; otherwise the current state must be `pending`
(cancelling a paid order is a caller error, reported not applied — pinned by
`test_cancel_order_cannot_cancel_paid`, HTTP 400); from `pending`, set
`cancelled`, persist and append an audit event. -/
def cancel_order (o : Order) : Except String Order :=
  if o.status = OrderStatus.cancelled then Except.ok o
  else if o.status = OrderStatus.pending then
    Except.ok { o with
                 status := OrderStatus.cancelled,
                 statusEvents := (o.status, OrderStatus.cancelled) :: o.statusEvents }
  else Except.error "Cannot cancel a non-pending order"

/-- Result of `finalize_intent_and_order`: the intent and order states after
the call, and whether `pay_order` was attempted (reached).  The source returns
`None`; the record makes the state explicit. -/
structure FinalizeResult where
  intent : Intent
  order : Order
  payAttempted : Bool
deriving DecidableEq, Repr

/-- `finalize_intent_and_order` (`payments/services.py:154`–203), parameterized
by the order-payment step `payFn` so that the `try/except` around
`pay_order(intent.order)` can be stated for an arbitrary outcome of that step:
`payFn` returning `Except.error` models `pay_order` raising, in which case the
exception is swallowed and the order state is left as it was.  The concrete
system instantiates `payFn` with `payOrderE` below. -/
def finalize_intent_and_order (payFn : Order → Except Unit Order)
    (intent : Intent) (ord : Order) (event : Event) : FinalizeResult :=
  if intent.status = IntentStatus.succeeded then
    { intent := intent, order := ord, payAttempted := false }
  else
    let amountKobo := eventAmountKobo event
    let expectedKobo := to_minor_units intent.amountCents intent.currency
    if amountKobo ≠ 0 ∧ expectedKobo ≠ 0 ∧ amountKobo ≠ expectedKobo then
      { intent := { intent with webhookEvent := some event, status := IntentStatus.failed },
        order := ord, payAttempted := false }
    else
      let intent' := { intent with webhookEvent := some event, status := IntentStatus.succeeded }
      match payFn ord with
      | Except.ok ord' => { intent := intent', order := ord', payAttempted := true }
      | Except.error _ => { intent := intent', order := ord, payAttempted := true }

/-- `pay_order` as the concrete, non-raising payment step passed to
`finalize_intent_and_order` (`payments/services.py:195`). -/
def payOrderE (o : Order) : Except Unit Order :=
  Except.ok (pay_order o)

/-- Response bodies the webhook view can produce after authentication and
intent lookup succeed (`payments/views.py:386`–418); all carry HTTP 200. -/
inductive WebhookBody where
  | ignored
  | processedWithOrder
  | processed
deriving DecidableEq, Repr

/-- Result of processing an authenticated webhook delivery for a located
intent: the response body, the resulting intent and order states, and whether
`finalize_intent_and_order` was invoked. -/
structure WebhookResult where
  body : WebhookBody
  intent : Intent
  order : Order
  finalizeCalled : Bool
deriving DecidableEq, Repr

/-- The webhook processing flow of `PaystackWebhookView.post` after signature
validation, JSON parsing, IP allow-listing and intent lookup succeeded
(`payments/views.py:386`–418).  `payloadHash` is the SHA-256 hex digest of the
raw request body.  First the payload-digest dedup short-circuit: a stored
`last_webhook_hash` equal to `payloadHash` returns `ignored` untouched;
otherwise the hash is stored on the intent's metadata.  Then dispatch on the
event name: `charge.success` runs the finalizer; `charge.failed` records the
event and unconditionally sets the intent's status to `failed`; anything else
is `ignored`. -/
def paystack_webhook_process (payFn : Order → Except Unit Order)
    (intent : Intent) (ord : Order) (event : Event) (payloadHash : String) :
    WebhookResult :=
  if intent.metadataLastWebhookHash = some payloadHash then
    { body := WebhookBody.ignored, intent := intent, order := ord, finalizeCalled := false }
  else
    let intent1 := { intent with metadataLastWebhookHash := some payloadHash }
    if event.event = "charge.success" then
      let r := finalize_intent_and_order payFn intent1 ord event
      { body := WebhookBody.processedWithOrder, intent := r.intent, order := r.order,
        finalizeCalled := true }
    else if event.event = "charge.failed" then
      { body := WebhookBody.processed,
        intent := { intent1 with webhookEvent := some event, status := IntentStatus.failed },
        order := ord, finalizeCalled := false }
    else
      { body := WebhookBody.ignored, intent := intent1, order := ord, finalizeCalled := false }

/-- An `IdempotencyKey` ledger row (`orders/models.py`) as read by
`with_idempotency`: the stored request-body hash and the cached response, both
absent while the row is in progress. -/
structure IdemRecord where
  requestHash : Option String
  responseJson : Option String
  responseCode : Option Int
deriving DecidableEq, Repr

/-- Outcome of a `with_idempotency` call: the returned `(body, code)` pair,
whether the guarded handler was invoked, and the ledger row afterwards. -/
structure IdemOutcome where
  body : String
  code : Int
  handlerInvoked : Bool
  record : IdemRecord
deriving DecidableEq, Repr

/-- Modelled from the spec: `with_idempotency` lives in `orders/services.py`,
which is not part of the provided sources.  Spec §4.1 with one branch pinned by
the repository's own tests: `record` is the ledger row already stored for the
(actor-scope, path, method, key) identity (`none` when absent), `reqHash` the
caller's request hash, and the handler a pure `(handlerBody, handlerCode)`
pair.  No row: insert an in-progress row, run the handler, persist and return
its result.  Row present with a stored hash differing from the caller's: 409
reuse conflict, handler not invoked.  Row present with a cached response:
return it verbatim.  Row present, in progress, matching hash: per
`test_with_idempotency_in_progress_returns_409` and
`test_with_idempotency_conflict_and_cached_returns`, 409 "Request in
progress" without invoking the handler (spec §4.1's final bullet instead says
the handler runs here; the repository's tests contradict that). -/
def with_idempotency (record : Option IdemRecord) (reqHash : Option String)
    (handlerBody : String) (handlerCode : Int) : IdemOutcome :=
  match record with
  | none =>
      { body := handlerBody, code := handlerCode, handlerInvoked := true,
        record := { requestHash := reqHash,
                    responseJson := some handlerBody, responseCode := some handlerCode } }
  | some r =>
      if r.requestHash.isSome ∧ reqHash.isSome ∧ r.requestHash ≠ reqHash then
        { body := "Idempotency key reused with different request payload",
          code := 409, handlerInvoked := false, record := r }
      else
        match r.responseJson, r.responseCode with
        | some b, some c =>
            { body := b, code := c, handlerInvoked := false, record := r }
        | _, _ =>
            { body := "Request in progress", code := 409, handlerInvoked := false,
              record := r }

/-! ### HMAC-SHA512 and the webhook signature validator

`validate_paystack_signature` (`payments/services.py:144`–151) computes
`hmac.new(secret, msg=raw_body, digestmod=hashlib.sha512).hexdigest()` and
compares it against the supplied signature with `hmac.compare_digest`, after
rejecting a falsy (empty) signature.  SHA-512 (FIPS 180-4) and HMAC (RFC 2104)
are implemented here over `Nat` bytes and 64-bit words reduced mod `2 ^ 64`. -/

/-- Reduce to a 64-bit word. -/
def w64 (n : Nat) : Nat := n % (2 ^ 64)

/-- Right rotation of a 64-bit word by `n` bits. -/
def rotr (n x : Nat) : Nat := w64 ((x >>> n) ||| (x <<< (64 - n)))

/-- Bitwise complement of a 64-bit word. -/
def wnot (x : Nat) : Nat := x ^^^ (2 ^ 64 - 1)

/-- SHA-512 `Ch(x, y, z)`. -/
def ch (x y z : Nat) : Nat := (x &&& y) ^^^ (wnot x &&& z)

/-- SHA-512 `Maj(x, y, z)`. -/
def maj (x y z : Nat) : Nat := (x &&& y) ^^^ (x &&& z) ^^^ (y &&& z)

/-- SHA-512 `Σ0`. -/
def bigSigma0 (x : Nat) : Nat := rotr 28 x ^^^ rotr 34 x ^^^ rotr 39 x

/-- SHA-512 `Σ1`. -/
def bigSigma1 (x : Nat) : Nat := rotr 14 x ^^^ rotr 18 x ^^^ rotr 41 x

/-- SHA-512 `σ0`. -/
def smallSigma0 (x : Nat) : Nat := rotr 1 x ^^^ rotr 8 x ^^^ (x >>> 7)

/-- SHA-512 `σ1`. -/
def smallSigma1 (x : Nat) : Nat := rotr 19 x ^^^ rotr 61 x ^^^ (x >>> 6)

/-- The 80 SHA-512 round constants (FIPS 180-4 §4.2.3). -/
def sha512K : List Nat := [
  4794697086780616226, 8158064640168781261, 13096744586834688815, 16840607885511220156,
  4131703408338449720, 6480981068601479193, 10538285296894168987, 12329834152419229976,
  15566598209576043074, 1334009975649890238, 2608012711638119052, 6128411473006802146,
  8268148722764581231, 9286055187155687089, 11230858885718282805, 13951009754708518548,
  16472876342353939154, 17275323862435702243, 1135362057144423861, 2597628984639134821,
  3308224258029322869, 5365058923640841347, 6679025012923562964, 8573033837759648693,
  10970295158949994411, 12119686244451234320, 12683024718118986047, 13788192230050041572,
  14330467153632333762, 15395433587784984357, 489312712824947311, 1452737877330783856,
  2861767655752347644, 3322285676063803686, 5560940570517711597, 5996557281743188959,
  7280758554555802590, 8532644243296465576, 9350256976987008742, 10552545826968843579,
  11727347734174303076, 12113106623233404929, 14000437183269869457, 14369950271660146224,
  15101387698204529176, 15463397548674623760, 17586052441742319658, 1182934255886127544,
  1847814050463011016, 2177327727835720531, 2830643537854262169, 3796741975233480872,
  4115178125766777443, 5681478168544905931, 6601373596472566643, 7507060721942968483,
  8399075790359081724, 8693463985226723168, 9568029438360202098, 10144078919501101548,
  10430055236837252648, 11840083180663258601, 13761210420658862357, 14299343276471374635,
  14566680578165727644, 15097957966210449927, 16922976911328602910, 17689382322260857208,
  500013540394364858, 748580250866718886, 1242879168328830382, 1977374033974150939,
  2944078676154940804, 3659926193048069267, 4368137639120453308, 4836135668995329356,
  5532061633213252278, 6448918945643986474, 6902733635092675308, 7801388544844847127]

/-- The eight 64-bit working variables of the SHA-512 compression function. -/
structure H8 where
  a : Nat
  b : Nat
  c : Nat
  d : Nat
  e : Nat
  f : Nat
  g : Nat
  h : Nat
deriving DecidableEq, Repr

/-- SHA-512 initial hash value (FIPS 180-4 §5.3.5). -/
def sha512Init : H8 :=
  { a := 7640891576956012808, b := 13503953896175478587, c := 4354685564936845355,
    d := 11912009170470909681, e := 5840696475078001361, f := 11170449401992604703,
    g := 2270897969802886507, h := 6620516959819538809 }

/-- One extension step of the SHA-512 message schedule: append
`σ1(w[n-2]) + w[n-7] + σ0(w[n-15]) + w[n-16]` mod `2 ^ 64`. -/
def scheduleStep (w : Array Nat) : Array Nat :=
  let n := w.size
  w.push (w64 (smallSigma1 (w.getD (n - 2) 0) + w.getD (n - 7) 0 +
               smallSigma0 (w.getD (n - 15) 0) + w.getD (n - 16) 0))

/-- Extend the 16 words of a block to the 80-entry message schedule. -/
def schedule (block : List Nat) : List Nat :=
  ((List.range 64).foldl (fun acc _ => scheduleStep acc) block.toArray).toList

/-- One SHA-512 round with round constant `k` and schedule word `w`. -/
def sha512Round (s : H8) (kw : Nat × Nat) : H8 :=
  let t1 := w64 (s.h + bigSigma1 s.e + ch s.e s.f s.g + kw.1 + kw.2)
  let t2 := w64 (bigSigma0 s.a + maj s.a s.b s.c)
  { a := w64 (t1 + t2), b := s.a, c := s.b, d := s.c,
    e := w64 (s.d + t1), f := s.e, g := s.f, h := s.g }

/-- SHA-512 compression of one 16-word block into the chaining state. -/
def compressBlock (s : H8) (block : List Nat) : H8 :=
  let t := (sha512K.zip (schedule block)).foldl sha512Round s
  { a := w64 (s.a + t.a), b := w64 (s.b + t.b), c := w64 (s.c + t.c),
    d := w64 (s.d + t.d), e := w64 (s.e + t.e), f := w64 (s.f + t.f),
    g := w64 (s.g + t.g), h := w64 (s.h + t.h) }

/-- The 16-byte big-endian encoding of the bit length `8 * L` of a message of
`L` bytes. -/
def lenBytes16 (L : Nat) : List Nat :=
  (List.range 16).map (fun i => ((8 * L) >>> (8 * (15 - i))) % 256)

/-- SHA-512 padding: append `0x80`, then zeros, then the 128-bit length, so the
total length is a multiple of 128 bytes. -/
def padMessage (msg : List Nat) : List Nat :=
  let L := msg.length
  msg ++ 128 :: List.replicate ((128 - ((L + 17) % 128)) % 128) 0 ++ lenBytes16 L

/-- Split a (padded) byte list into its 128-byte blocks. -/
def blocksOf (l : List Nat) : List (List Nat) :=
  (List.range (l.length / 128)).map (fun i => (l.drop (128 * i)).take 128)

/-- Read a 128-byte block as 16 big-endian 64-bit words. -/
def bytesToWords (block : List Nat) : List Nat :=
  (List.range 16).map (fun i => ((block.drop (8 * i)).take 8).foldl (fun acc b => acc * 256 + b) 0)

/-- The 8 big-endian bytes of a 64-bit word. -/
def wordBytes (w : Nat) : List Nat :=
  (List.range 8).map (fun i => (w >>> (8 * (7 - i))) % 256)

/-- SHA-512 of a byte list, as the 64 digest bytes. -/
def sha512Bytes (msg : List Nat) : List Nat :=
  let s := ((blocksOf (padMessage msg)).map bytesToWords).foldl compressBlock sha512Init
  wordBytes s.a ++ wordBytes s.b ++ wordBytes s.c ++ wordBytes s.d ++
  wordBytes s.e ++ wordBytes s.f ++ wordBytes s.g ++ wordBytes s.h

/-- Lowercase hex digit for a value below 16, as Python's `hexdigest` emits. -/
def hexDigit (n : Nat) : Char := if n < 10 then Char.ofNat (48 + n) else Char.ofNat (87 + n)

/-- Two lowercase hex characters per byte. -/
def hexOfBytes : List Nat → List Char
  | [] => []
  | b :: bs => hexDigit (b / 16) :: hexDigit (b % 16) :: hexOfBytes bs

/-- HMAC-SHA512 (RFC 2104): digest bytes for `key` and `msg`. -/
def hmacSha512 (key msg : List Nat) : List Nat :=
  let k0 := if 128 < key.length then sha512Bytes key else key
  let kp := k0 ++ List.replicate (128 - k0.length) 0
  let ipadded := kp.map (fun b => b ^^^ 54)
  let opadded := kp.map (fun b => b ^^^ 92)
  sha512Bytes (opadded ++ sha512Bytes (ipadded ++ msg))

/-- `hmac.new(key, msg, hashlib.sha512).hexdigest()`: the lowercase hex string
of the HMAC-SHA512 digest. -/
def hmacSha512Hex (key msg : List Nat) : String :=
  String.mk (hexOfBytes (hmacSha512 key msg))

/-- The UTF-8 bytes of an ASCII string (each code point below 128 is one byte). -/
def strBytes (s : String) : List Nat := s.data.map Char.toNat

/-- `validate_paystack_signature` (`payments/services.py:144`–151): reject a
falsy (empty) signature, otherwise constant-time-compare it with the lowercase
hex HMAC-SHA512 digest of the exact raw body under the configured secret.
`hmac.compare_digest` on ASCII strings is string equality. -/
def validate_paystack_signature (secret rawBody : List Nat) (signature : String) : Bool :=
  if signature = "" then false
  else signature == hmacSha512Hex secret rawBody

/-! ### Supporting lemmas -/

set_option maxRecDepth 10000 in
/-- A known-answer test anchoring the HMAC-SHA512 implementation: the digest of
the two raw bytes of a `\x7b\x7d` body under the key `"secret"` agrees with
`hmac.new(b"secret", b"..", hashlib.sha512).hexdigest()`. -/
theorem hmacSha512Hex_kat :
    hmacSha512Hex (strBytes "secret") [123, 125] =
      "d6f1126a735b5a754f6e58434f170bdefdffada2c17f67d9bbd86d97669b94f80a92978665bf7ea423832b3f4f3856e2901a7c028e16c81efbb43298a1c00772" := by
  decide

theorem hexOfBytes_length (bs : List Nat) : (hexOfBytes bs).length = 2 * bs.length := by
  induction bs with
  | nil => simp [hexOfBytes]
  | cons b bs ih => simp [hexOfBytes, ih]; ring

theorem sha512Bytes_length (msg : List Nat) : (sha512Bytes msg).length = 64 := by
  simp [sha512Bytes, wordBytes]

theorem hmacSha512Hex_length (key msg : List Nat) :
    (hmacSha512Hex key msg).length = 128 := by
  show (hexOfBytes (hmacSha512 key msg)).length = 128
  rw [hexOfBytes_length]
  simp [hmacSha512, sha512Bytes_length]

theorem hmacSha512Hex_ne_empty (key msg : List Nat) : hmacSha512Hex key msg ≠ "" := by
  intro h
  have := hmacSha512Hex_length key msg
  rw [h] at this
  exact absurd this (by decide)

theorem finalize_preserves_metadata (payFn : Order → Except Unit Order)
    (intent : Intent) (ord : Order) (event : Event) :
    (finalize_intent_and_order payFn intent ord event).intent.metadataLastWebhookHash =
      intent.metadataLastWebhookHash := by
  unfold finalize_intent_and_order
  by_cases hs : intent.status = IntentStatus.succeeded
  · simp [hs]
  · by_cases hm : eventAmountKobo event ≠ 0 ∧
        to_minor_units intent.amountCents intent.currency ≠ 0 ∧
        eventAmountKobo event ≠ to_minor_units intent.amountCents intent.currency
    · simp [hs, hm]
    · cases hpf : payFn ord <;> simp [hs, hm, hpf]

/-! ### Claim theorems -/

/-- C8: `validate_paystack_signature` returns `true` iff the supplied signature
equals the lowercase hex HMAC-SHA512 digest of the exact raw body under the
configured secret; an empty (missing) signature is always rejected, and hence
any signature differing from the digest — in particular one altered in a
single byte — fails. -/
theorem validate_paystack_signature_correct (secret rawBody : List Nat) (signature : String) :
    (validate_paystack_signature secret rawBody signature = true ↔
      signature = hmacSha512Hex secret rawBody) ∧
    validate_paystack_signature secret rawBody "" = false := by
  refine ⟨?_, by simp [validate_paystack_signature]⟩
  unfold validate_paystack_signature
  by_cases h : signature = ""
  · subst h
    constructor
    · intro hcontra
      rw [if_pos rfl] at hcontra
      cases hcontra
    · intro hEq
      exact absurd hEq.symm (hmacSha512Hex_ne_empty secret rawBody)
  · simp [h]

/-- C1: finalization is idempotent on success.  An intent already `succeeded`
makes `finalize_intent_and_order` return immediately, changing neither the
intent nor the order and never reaching `pay_order`; consequently, for a
not-yet-succeeded intent, a pending order and a matching-amount event, running
the finalizer twice equals running it once: the order transitions to `paid`
with exactly one appended audit event on the first run, and the second run is
a no-op. -/
theorem finalize_idempotent_on_success :
    (∀ (payFn : Order → Except Unit Order) (intent : Intent) (ord : Order) (event : Event),
        intent.status = IntentStatus.succeeded →
        finalize_intent_and_order payFn intent ord event =
          { intent := intent, order := ord, payAttempted := false }) ∧
    (∀ (intent : Intent) (ord : Order) (event : Event),
        intent.status ≠ IntentStatus.succeeded →
        ord.status = OrderStatus.pending →
        eventAmountKobo event = to_minor_units intent.amountCents intent.currency →
        (finalize_intent_and_order payOrderE intent ord event).intent.status =
            IntentStatus.succeeded ∧
        (finalize_intent_and_order payOrderE intent ord event).order.status =
            OrderStatus.paid ∧
        (finalize_intent_and_order payOrderE intent ord event).order.statusEvents =
            (OrderStatus.pending, OrderStatus.paid) :: ord.statusEvents ∧
        (finalize_intent_and_order payOrderE intent ord event).payAttempted = true ∧
        finalize_intent_and_order payOrderE
            (finalize_intent_and_order payOrderE intent ord event).intent
            (finalize_intent_and_order payOrderE intent ord event).order event =
          { intent := (finalize_intent_and_order payOrderE intent ord event).intent,
            order := (finalize_intent_and_order payOrderE intent ord event).order,
            payAttempted := false }) := by
  constructor
  · intro payFn intent ord event hs
    simp [finalize_intent_and_order, hs]
  · intro intent ord event hs hord hamt
    have hnm : ¬(eventAmountKobo event ≠ 0 ∧
        to_minor_units intent.amountCents intent.currency ≠ 0 ∧
        eventAmountKobo event ≠ to_minor_units intent.amountCents intent.currency) := by
      intro hc
      exact hc.2.2 hamt
    have hpaid : ord.status ≠ OrderStatus.paid := by
      rw [hord]; intro hc; cases hc
    have h1 : finalize_intent_and_order payOrderE intent ord event =
        FinalizeResult.mk
          { intent with webhookEvent := some event, status := IntentStatus.succeeded }
          (Order.mk OrderStatus.paid ((ord.status, OrderStatus.paid) :: ord.statusEvents))
          true := by
      simp [finalize_intent_and_order, hs, hnm, payOrderE, pay_order, hpaid]
    rw [h1, hord]
    refine ⟨rfl, rfl, rfl, rfl, ?_⟩
    simp [finalize_intent_and_order]

/-- C2: amount reconciliation.  When the gateway-reported minor-unit amount
and the expected minor-unit amount computed from the intent's amount/currency
are both non-zero and differ, the finalizer records the raw event on the
intent, sets its status to `failed` and returns without reaching `pay_order`,
leaving the order exactly as it was. -/
theorem finalize_amount_mismatch (payFn : Order → Except Unit Order)
    (intent : Intent) (ord : Order) (event : Event)
    (hs : intent.status ≠ IntentStatus.succeeded)
    (ha : eventAmountKobo event ≠ 0)
    (he : to_minor_units intent.amountCents intent.currency ≠ 0)
    (hm : eventAmountKobo event ≠ to_minor_units intent.amountCents intent.currency) :
    finalize_intent_and_order payFn intent ord event =
      { intent := { intent with webhookEvent := some event, status := IntentStatus.failed },
        order := ord, payAttempted := false } := by
  simp [finalize_intent_and_order, hs, ha, he, hm]

/-- C3: on a matching (or unreconcilable) amount the finalizer records the
event and marks the intent `succeeded` before the order transition is
attempted — the resulting intent state is the same for every possible outcome
of the payment step — and an exception raised by the transition is swallowed,
leaving the intent `succeeded` and the order as it was. -/
theorem finalize_succeeds_before_transition (payFn : Order → Except Unit Order)
    (intent : Intent) (ord : Order) (event : Event)
    (hs : intent.status ≠ IntentStatus.succeeded)
    (hok : ¬(eventAmountKobo event ≠ 0 ∧
             to_minor_units intent.amountCents intent.currency ≠ 0 ∧
             eventAmountKobo event ≠ to_minor_units intent.amountCents intent.currency)) :
    (finalize_intent_and_order payFn intent ord event).intent =
      { intent with webhookEvent := some event, status := IntentStatus.succeeded } ∧
    (finalize_intent_and_order payFn intent ord event).payAttempted = true ∧
    (∀ e, payFn ord = Except.error e →
      (finalize_intent_and_order payFn intent ord event).order = ord) ∧
    (∀ payFn2 : Order → Except Unit Order,
      (finalize_intent_and_order payFn2 intent ord event).intent =
        (finalize_intent_and_order payFn intent ord event).intent) := by
  refine ⟨?_, ?_, ?_, ?_⟩
  · cases hpf : payFn ord <;> simp [finalize_intent_and_order, hs, hok, hpf]
  · cases hpf : payFn ord <;> simp [finalize_intent_and_order, hs, hok, hpf]
  · intro e hpf
    simp [finalize_intent_and_order, hs, hok, hpf]
  · intro payFn2
    cases hpf : payFn ord <;> cases hpf2 : payFn2 ord <;>
      simp [finalize_intent_and_order, hs, hok, hpf, hpf2]

/-- C10: a webhook event whose `data.amount` is absent, present but not
parsable as an integer, or zero makes the finalizer treat the gateway-reported
amount as `0`, which skips the amount-reconciliation guard entirely: the
intent is marked `succeeded` and the order transition is attempted without any
amount having been verified. -/
theorem finalize_unverified_amount_succeeds (payFn : Order → Except Unit Order)
    (intent : Intent) (ord : Order) (event : Event)
    (hs : intent.status ≠ IntentStatus.succeeded)
    (h0 : event.dataAmount = none ∨ event.dataAmount = some none ∨
          event.dataAmount = some (some 0)) :
    eventAmountKobo event = 0 ∧
    (finalize_intent_and_order payFn intent ord event).intent.status =
      IntentStatus.succeeded ∧
    (finalize_intent_and_order payFn intent ord event).payAttempted = true := by
  have hz : eventAmountKobo event = 0 := by
    rcases h0 with h | h | h <;> simp [eventAmountKobo, h]
  refine ⟨hz, ?_, ?_⟩ <;>
    cases hpf : payFn ord <;> simp [finalize_intent_and_order, hs, hz, hpf]

/-- C5: idempotency-key reuse with a different payload.  When a ledger record
exists for the (actor-scope, path, method, key) identity and its stored
`request_hash` differs from the caller's current hash, `with_idempotency`
returns 409 with detail "Idempotency key reused with different request
payload", never invokes the handler and leaves the record untouched. -/
theorem with_idempotency_reuse_conflict (r : IdemRecord) (h1 h2 : String)
    (hb : String) (hc : Int) (hr : r.requestHash = some h1) (hne : h1 ≠ h2) :
    with_idempotency (some r) (some h2) hb hc =
      IdemOutcome.mk "Idempotency key reused with different request payload" 409 false r := by
  have hcond : r.requestHash.isSome ∧ (some h2 : Option String).isSome ∧
      r.requestHash ≠ some h2 := by
    refine ⟨by rw [hr]; rfl, rfl, ?_⟩
    rw [hr]
    intro hc2
    exact hne (Option.some.inj hc2)
  simp [with_idempotency, hcond]

theorem with_idempotency_reuse_conflict_witness :
    with_idempotency (some (IdemRecord.mk (some "h1") none none)) (some "h2") "ok" 200 =
      IdemOutcome.mk "Idempotency key reused with different request payload" 409 false
        (IdemRecord.mk (some "h1") none none) :=
  with_idempotency_reuse_conflict (IdemRecord.mk (some "h1") none none) "h1" "h2" "ok" 200
    rfl (by decide)

/-- C6 counterexample: a ledger record that exists, is still in progress (no
stored response) and whose stored hash `"h1"` matches the caller's hash makes
`with_idempotency` return 409 "Request in progress" WITHOUT invoking the
handler — not, as claimed, invoke the handler and return its `(body, code)`
(here `("ok-body", 200)`).  This matches the repository's own test
`test_with_idempotency_in_progress_returns_409`. -/
theorem with_idempotency_in_progress_counterexample :
    (with_idempotency (some (IdemRecord.mk (some "h1") none none)) (some "h1")
        "ok-body" 200).handlerInvoked = false ∧
    (with_idempotency (some (IdemRecord.mk (some "h1") none none)) (some "h1")
        "ok-body" 200).code = 409 ∧
    (with_idempotency (some (IdemRecord.mk (some "h1") none none)) (some "h1")
        "ok-body" 200).body = "Request in progress" := by
  decide

/-- C6 (amended): when a ledger record exists, is in progress (no stored
response) and its stored hash matches the caller's, `with_idempotency` returns
409 "Request in progress" without invoking the handler; the handler is invoked
— and its `(body, code)` persisted onto the record and returned — only by the
call that finds no existing record and inserts the in-progress row. -/
theorem with_idempotency_in_progress_409 (r : IdemRecord) (reqHash : Option String)
    (hb : String) (hc : Int)
    (hj : r.responseJson = none) (hcode : r.responseCode = none)
    (hh : r.requestHash = reqHash) :
    with_idempotency (some r) reqHash hb hc =
      IdemOutcome.mk "Request in progress" 409 false r ∧
    with_idempotency none reqHash hb hc =
      IdemOutcome.mk hb hc true (IdemRecord.mk reqHash (some hb) (some hc)) := by
  constructor
  · simp [with_idempotency, hh, hj, hcode]
  · simp [with_idempotency]

theorem with_idempotency_in_progress_409_witness :
    with_idempotency (some (IdemRecord.mk (some "h9") none none)) (some "h9") "body9" 200 =
      IdemOutcome.mk "Request in progress" 409 false (IdemRecord.mk (some "h9") none none) ∧
    with_idempotency none (some "h9") "body9" 200 =
      IdemOutcome.mk "body9" 200 true (IdemRecord.mk (some "h9") (some "body9") (some 200)) :=
  with_idempotency_in_progress_409 (IdemRecord.mk (some "h9") none none) (some "h9")
    "body9" 200 rfl rfl rfl

/-- C9: payload-digest deduplication on the webhook endpoint.  After any
delivery is processed, the SHA-256 digest of its raw payload is stored in the
intent's metadata, so a second, byte-identical delivery (same digest) for the
same reference returns body ignored (HTTP 200), never reaches the
finalizer and changes neither the intent nor the order. -/
theorem webhook_payload_digest_dedup (payFn : Order → Except Unit Order)
    (intent : Intent) (ord : Order) (event : Event) (h : String) :
    (paystack_webhook_process payFn intent ord event h).intent.metadataLastWebhookHash =
        some h ∧
    paystack_webhook_process payFn
        (paystack_webhook_process payFn intent ord event h).intent
        (paystack_webhook_process payFn intent ord event h).order event h =
      WebhookResult.mk WebhookBody.ignored
        (paystack_webhook_process payFn intent ord event h).intent
        (paystack_webhook_process payFn intent ord event h).order false := by
  have hshort : ∀ (i : Intent) (o : Order), i.metadataLastWebhookHash = some h →
      paystack_webhook_process payFn i o event h =
        WebhookResult.mk WebhookBody.ignored i o false := by
    intro i o hi
    unfold paystack_webhook_process
    rw [if_pos hi]
  have hmeta : (paystack_webhook_process payFn intent ord event h).intent.metadataLastWebhookHash =
      some h := by
    unfold paystack_webhook_process
    by_cases h1 : intent.metadataLastWebhookHash = some h
    · simp [h1]
    · by_cases h2 : event.event = "charge.success"
      · simp [h1, h2, finalize_preserves_metadata]
      · by_cases h3 : event.event = "charge.failed" <;> simp [h1, h2, h3]
  exact ⟨hmeta, hshort _ _ hmeta⟩

/-- C4 counterexample: an intent already `succeeded` (with some previous
payload digest stored) receives a `charge.failed` delivery whose payload
digest is new; the webhook handler overwrites the intent's status with
`failed` (`payments/views.py:409`–412 has no succeeded guard), so the further
delivery is NOT a state no-op as claimed. -/
theorem webhook_charge_failed_after_success_counterexample :
    (paystack_webhook_process payOrderE
        (Intent.mk IntentStatus.succeeded (some 5000) "NGN" (some "hash0") none)
        (Order.mk OrderStatus.paid [])
        (Event.mk "charge.failed" none) "hash1").intent.status ≠
      IntentStatus.succeeded := by
  decide

/-- C4 (amended): once an intent is `succeeded`, a `charge.success` delivery
leaves its status `succeeded` and the order untouched (the finalizer's guard),
and a byte-identical replay of any event is ignored entirely; but a
`charge.failed` delivery whose payload digest differs from the stored one sets
the intent's status to `failed` — the exactly-one-terminal-success invariant
holds only for success events and identical replays, not for fresh
`charge.failed` deliveries. -/
theorem webhook_after_success_state (payFn : Order → Except Unit Order)
    (intent : Intent) (ord : Order) (event : Event) (payloadHash : String)
    (hs : intent.status = IntentStatus.succeeded) :
    (event.event = "charge.success" →
      (paystack_webhook_process payFn intent ord event payloadHash).intent.status =
          IntentStatus.succeeded ∧
      (paystack_webhook_process payFn intent ord event payloadHash).order = ord) ∧
    (intent.metadataLastWebhookHash = some payloadHash →
      paystack_webhook_process payFn intent ord event payloadHash =
        WebhookResult.mk WebhookBody.ignored intent ord false) ∧
    (intent.metadataLastWebhookHash ≠ some payloadHash → event.event = "charge.failed" →
      (paystack_webhook_process payFn intent ord event payloadHash).intent.status =
        IntentStatus.failed) := by
  refine ⟨?_, ?_, ?_⟩
  · intro hev
    by_cases hd : intent.metadataLastWebhookHash = some payloadHash
    · simp [paystack_webhook_process, hd, hs]
    · simp [paystack_webhook_process, hd, hev, finalize_intent_and_order, hs]
  · intro hd
    unfold paystack_webhook_process
    rw [if_pos hd]
  · intro hd hev
    simp [paystack_webhook_process, hd, hev]

theorem webhook_after_success_state_witness :
    ((paystack_webhook_process payOrderE
        (Intent.mk IntentStatus.succeeded (some 5000) "NGN" (some "hash0") none)
        (Order.mk OrderStatus.paid [])
        (Event.mk "charge.success" (some (some 5000))) "hash1").intent.status =
          IntentStatus.succeeded ∧
      (paystack_webhook_process payOrderE
        (Intent.mk IntentStatus.succeeded (some 5000) "NGN" (some "hash0") none)
        (Order.mk OrderStatus.paid [])
        (Event.mk "charge.success" (some (some 5000))) "hash1").order =
          Order.mk OrderStatus.paid []) ∧
    paystack_webhook_process payOrderE
        (Intent.mk IntentStatus.succeeded (some 5000) "NGN" (some "hash0") none)
        (Order.mk OrderStatus.paid [])
        (Event.mk "charge.success" (some (some 5000))) "hash0" =
      WebhookResult.mk WebhookBody.ignored
        (Intent.mk IntentStatus.succeeded (some 5000) "NGN" (some "hash0") none)
        (Order.mk OrderStatus.paid []) false ∧
    (paystack_webhook_process payOrderE
        (Intent.mk IntentStatus.succeeded (some 5000) "NGN" (some "hash0") none)
        (Order.mk OrderStatus.paid [])
        (Event.mk "charge.failed" none) "hash1").intent.status = IntentStatus.failed :=
  ⟨(webhook_after_success_state payOrderE
      (Intent.mk IntentStatus.succeeded (some 5000) "NGN" (some "hash0") none)
      (Order.mk OrderStatus.paid [])
      (Event.mk "charge.success" (some (some 5000))) "hash1" rfl).1 rfl,
   (webhook_after_success_state payOrderE
      (Intent.mk IntentStatus.succeeded (some 5000) "NGN" (some "hash0") none)
      (Order.mk OrderStatus.paid [])
      (Event.mk "charge.success" (some (some 5000))) "hash0" rfl).2.1 rfl,
   (webhook_after_success_state payOrderE
      (Intent.mk IntentStatus.succeeded (some 5000) "NGN" (some "hash0") none)
      (Order.mk OrderStatus.paid [])
      (Event.mk "charge.failed" none) "hash1" rfl).2.2 (by decide) rfl⟩

/-- C7: evaluation of the order state machine at the claim's failing input.
`cancel_order` on a paid order is rejected rather than applied, as the claim
states; but `pay_order` — whose short-circuit checks only "already paid" —
marks a cancelled order `paid`, and the finalizer reaches it on a
`charge.success` webhook, so the order's status does leave `cancelled`,
contradicting the claimed terminal-state invariant. -/
theorem pay_cancelled_order_becomes_paid :
    (pay_order (Order.mk OrderStatus.cancelled [])).status = OrderStatus.paid ∧
    cancel_order (Order.mk OrderStatus.paid []) =
      Except.error "Cannot cancel a non-pending order" ∧
    (finalize_intent_and_order payOrderE
        (Intent.mk IntentStatus.initialized (some 5000) "NGN" none none)
        (Order.mk OrderStatus.cancelled [])
        (Event.mk "charge.success" (some (some 5000)))).order.status =
      OrderStatus.paid :=
  ⟨rfl, rfl, rfl⟩

theorem finalize_idempotent_on_success_witness :
    finalize_intent_and_order payOrderE
        (Intent.mk IntentStatus.succeeded (some 5000) "NGN" none none)
        (Order.mk OrderStatus.pending [])
        (Event.mk "charge.success" (some (some 5000))) =
      FinalizeResult.mk (Intent.mk IntentStatus.succeeded (some 5000) "NGN" none none)
        (Order.mk OrderStatus.pending []) false ∧
    (finalize_intent_and_order payOrderE
        (Intent.mk IntentStatus.initialized (some 5000) "NGN" none none)
        (Order.mk OrderStatus.pending [])
        (Event.mk "charge.success" (some (some 5000)))).intent.status =
      IntentStatus.succeeded ∧
    (finalize_intent_and_order payOrderE
        (Intent.mk IntentStatus.initialized (some 5000) "NGN" none none)
        (Order.mk OrderStatus.pending [])
        (Event.mk "charge.success" (some (some 5000)))).order.status =
      OrderStatus.paid :=
  ⟨finalize_idempotent_on_success.1 payOrderE
      (Intent.mk IntentStatus.succeeded (some 5000) "NGN" none none)
      (Order.mk OrderStatus.pending [])
      (Event.mk "charge.success" (some (some 5000))) rfl,
   (finalize_idempotent_on_success.2
      (Intent.mk IntentStatus.initialized (some 5000) "NGN" none none)
      (Order.mk OrderStatus.pending [])
      (Event.mk "charge.success" (some (some 5000))) (by decide) rfl (by decide)).1,
   (finalize_idempotent_on_success.2
      (Intent.mk IntentStatus.initialized (some 5000) "NGN" none none)
      (Order.mk OrderStatus.pending [])
      (Event.mk "charge.success" (some (some 5000))) (by decide) rfl (by decide)).2.1⟩

theorem finalize_amount_mismatch_witness :
    finalize_intent_and_order payOrderE
        (Intent.mk IntentStatus.initialized (some 5000) "NGN" none none)
        (Order.mk OrderStatus.pending [])
        (Event.mk "charge.success" (some (some 4000))) =
      FinalizeResult.mk
        (Intent.mk IntentStatus.failed (some 5000) "NGN" none
          (some (Event.mk "charge.success" (some (some 4000)))))
        (Order.mk OrderStatus.pending []) false :=
  finalize_amount_mismatch payOrderE
    (Intent.mk IntentStatus.initialized (some 5000) "NGN" none none)
    (Order.mk OrderStatus.pending [])
    (Event.mk "charge.success" (some (some 4000)))
    (by decide) (by decide) (by decide) (by decide)

theorem finalize_succeeds_before_transition_witness :
    (finalize_intent_and_order (fun _ => Except.error ())
        (Intent.mk IntentStatus.initialized (some 5000) "NGN" none none)
        (Order.mk OrderStatus.pending [])
        (Event.mk "charge.success" (some (some 5000)))).intent =
      Intent.mk IntentStatus.succeeded (some 5000) "NGN" none
        (some (Event.mk "charge.success" (some (some 5000)))) ∧
    (finalize_intent_and_order (fun _ => Except.error ())
        (Intent.mk IntentStatus.initialized (some 5000) "NGN" none none)
        (Order.mk OrderStatus.pending [])
        (Event.mk "charge.success" (some (some 5000)))).payAttempted = true ∧
    (finalize_intent_and_order (fun _ => Except.error ())
        (Intent.mk IntentStatus.initialized (some 5000) "NGN" none none)
        (Order.mk OrderStatus.pending [])
        (Event.mk "charge.success" (some (some 5000)))).order =
      Order.mk OrderStatus.pending [] :=
  ⟨(finalize_succeeds_before_transition (fun _ => Except.error ())
      (Intent.mk IntentStatus.initialized (some 5000) "NGN" none none)
      (Order.mk OrderStatus.pending [])
      (Event.mk "charge.success" (some (some 5000))) (by decide) (by decide)).1,
   (finalize_succeeds_before_transition (fun _ => Except.error ())
      (Intent.mk IntentStatus.initialized (some 5000) "NGN" none none)
      (Order.mk OrderStatus.pending [])
      (Event.mk "charge.success" (some (some 5000))) (by decide) (by decide)).2.1,
   (finalize_succeeds_before_transition (fun _ => Except.error ())
      (Intent.mk IntentStatus.initialized (some 5000) "NGN" none none)
      (Order.mk OrderStatus.pending [])
      (Event.mk "charge.success" (some (some 5000))) (by decide) (by decide)).2.2.1 () rfl⟩

theorem finalize_unverified_amount_succeeds_witness :
    eventAmountKobo (Event.mk "charge.success" none) = 0 ∧
    (finalize_intent_and_order payOrderE
        (Intent.mk IntentStatus.initialized (some 5000) "NGN" none none)
        (Order.mk OrderStatus.pending [])
        (Event.mk "charge.success" none)).intent.status = IntentStatus.succeeded ∧
    (finalize_intent_and_order payOrderE
        (Intent.mk IntentStatus.initialized (some 5000) "NGN" none none)
        (Order.mk OrderStatus.pending [])
        (Event.mk "charge.success" none)).payAttempted = true :=
  finalize_unverified_amount_succeeds payOrderE
    (Intent.mk IntentStatus.initialized (some 5000) "NGN" none none)
    (Order.mk OrderStatus.pending [])
    (Event.mk "charge.success" none) (by decide) (Or.inl rfl)
